import Mathlib

/-!
Shallow embedding of the order-checkout / payment-reconciliation core of the
Digital-E-Commerce-V1 backend.

Monetary amounts (Prisma `Decimal` values and the JavaScript numbers derived
from them) are modelled as `ℚ`; timestamps (`Date` values) as `ℤ` epoch
instants; database rows as Lean structures collected in lists inside a `Db`
record.  The external payment processor and the node `crypto` HMAC primitive
are parameters of a `PayEnv` environment record.  Fallible service methods
return `Except AppError`, mirroring the NestJS exceptions they throw.
-/

namespace ECom

/-- `OrderStatus` enum from the Prisma schema. -/
inductive OrderStatus
  | PENDING
  | PAID
  | FAILED
  | REFUNDED
  | CANCELLED
deriving DecidableEq, Repr

/-- `PaymentStatus` enum from the Prisma schema. -/
inductive PaymentStatus
  | PENDING
  | COMPLETED
  | FAILED
  | REFUNDED
deriving DecidableEq, Repr

/-- Payment methods produced by `WebhooksController.mapPaymentMethod`. -/
inductive PaymentMethod
  | CARD
  | MOBILE_WALLET
  | CASH
deriving DecidableEq, Repr

/-- Denormalized product snapshot carried by a cart item via the Prisma
`include: { product: true }` in `OrdersService.createOrder`. -/
structure ProductSnap where
  title : String
  authorName : String
  pdfFile : String
deriving DecidableEq, Repr

/-- A `CartItem` row with its included product. -/
structure CartItem where
  productId : String
  priceAtAdd : ℚ
  product : ProductSnap
deriving DecidableEq, Repr

/-- A `Cart` row with its items (one cart per user). -/
structure Cart where
  id : String
  userId : String
  items : List CartItem
deriving DecidableEq, Repr

/-- An `OrderItem` row: the denormalized copy created in
`OrdersService.createOrder` from a cart item and its product snapshot. -/
structure OrderItem where
  productId : String
  title : String
  authorName : String
  price : ℚ
  pdfFile : String
deriving DecidableEq, Repr

/-- An `Order` row (with its included items). -/
structure Order where
  id : String
  userId : String
  subtotal : ℚ
  discountAmount : ℚ
  total : ℚ
  discountCodeId : Option String
  discountCodeUsed : Option String
  status : OrderStatus
  paidAt : Option ℤ
  items : List OrderItem
deriving DecidableEq, Repr

/-- A `DiscountCode` row.  `usageLimit` and `perUserLimit` are nullable MySQL
INTEGER columns (JS `number | null`); `minPurchase` and `maxDiscount` are
nullable DECIMAL columns (Prisma `Decimal | null`). -/
structure DiscountCode where
  id : String
  code : String
  discountType : String
  discountValue : ℚ
  minPurchase : Option ℚ
  maxDiscount : Option ℚ
  usageLimit : Option ℤ
  usageCount : ℤ
  perUserLimit : Option ℤ
  isActive : Bool
  startsAt : Option ℤ
  expiresAt : Option ℤ
deriving DecidableEq, Repr

/-- A `DiscountUsage` row: append-only join of (discountCode, user, order). -/
structure DiscountUsage where
  discountCodeId : String
  userId : String
  orderId : String
deriving DecidableEq, Repr

/-- The `source_data` object of a Paymob webhook transaction. -/
structure SourceData where
  type : String
  pan : String
  sub_type : String
deriving DecidableEq, Repr

/-- The `order` object nested in a Paymob webhook transaction.  The
`merchant_order_id` is our order id; `none` models an absent value (the
controller checks `if (!ourOrderId)`, so the empty string is falsy too). -/
structure WebhookOrderObj where
  id : ℕ
  merchant_order_id : Option String
deriving DecidableEq, Repr

/-- The transaction object `payload.obj` of a Paymob webhook, restricted to
the fields the controller and the signature check read.  `data_message`
models `transaction.data?.message` when it is a string. -/
structure WebhookTx where
  id : ℕ
  amount_cents : ℕ
  integration_id : ℕ
  owner : ℕ
  success : Bool
  is_auth : Bool
  is_capture : Bool
  is_standalone_payment : Bool
  is_voided : Bool
  is_refunded : Bool
  is_3d_secure : Bool
  has_parent_transaction : Bool
  error_occured : Bool
  pending : Bool
  created_at : String
  currency : String
  order : WebhookOrderObj
  source_data : SourceData
  data_message : Option String
deriving DecidableEq, Repr

/-- The webhook POST body: `{ obj, hmac }` (the `type` discriminator is
constant `TRANSACTION` and unused by the handler). -/
structure PaymobWebhookData where
  obj : WebhookTx
  hmac : String
deriving DecidableEq, Repr

/-- A `Payment` row (one-to-one with `Order`, keyed by `orderId`). -/
structure Payment where
  orderId : String
  amount : ℚ
  status : PaymentStatus
  paymobTransactionId : Option String
  paymobOrderId : Option String
  paymentMethod : Option PaymentMethod
  paidAt : Option ℤ
  webhookReceived : Bool
  webhookData : Option PaymobWebhookData
  failureReason : Option String
deriving DecidableEq, Repr

/-- The slice of a `User` row that checkout reads. -/
structure User where
  id : String
  email : String
  firstName : String
  lastName : String
deriving DecidableEq, Repr

/-- The persistent store: the tables touched by the checkout and webhook
paths, each as a list of rows. -/
structure Db where
  carts : List Cart
  orders : List Order
  payments : List Payment
  discountCodes : List DiscountCode
  discountUsages : List DiscountUsage
  users : List User
deriving DecidableEq, Repr

/-- `prisma.cart.findUnique({ where: { userId } })`. -/
def Db.findCartByUser (db : Db) (userId : String) : Option Cart :=
  db.carts.find? (fun c => c.userId == userId)

/-- `prisma.order.findUnique({ where: { id } })`. -/
def Db.findOrder (db : Db) (id : String) : Option Order :=
  db.orders.find? (fun o => o.id == id)

/-- The `payment` relation of an order (`include: { payment: true }`), and
`tx.payment.update({ where: { orderId } })`'s row lookup. -/
def Db.findPaymentByOrder (db : Db) (orderId : String) : Option Payment :=
  db.payments.find? (fun p => p.orderId == orderId)

/-- `prisma.discountCode.findUnique({ where: { code } })`. -/
def Db.findDiscountByCode (db : Db) (code : String) : Option DiscountCode :=
  db.discountCodes.find? (fun d => d.code == code)

/-- `prisma.user.findUnique({ where: { id } })` (contact-info slice). -/
def Db.findUser (db : Db) (id : String) : Option User :=
  db.users.find? (fun u => u.id == id)

/-- `prisma.discountUsage.count({ where: { discountCodeId, userId } })`. -/
def Db.countUserUsages (db : Db) (discountCodeId userId : String) : ℤ :=
  ((db.discountUsages.filter
      (fun u => u.discountCodeId == discountCodeId && u.userId == userId)).length : ℤ)

/-- `order.update({ where: { id } , data })` applied to every matching row. -/
def Db.updateOrderRow (db : Db) (id : String) (f : Order → Order) : Db :=
  { db with orders := db.orders.map (fun o => if o.id == id then f o else o) }

/-- `payment.update({ where: { orderId }, data })` applied to every matching
row. -/
def Db.updatePaymentRow (db : Db) (orderId : String) (f : Payment → Payment) : Db :=
  { db with payments := db.payments.map (fun p => if p.orderId == orderId then f p else p) }

/-- `discountCode.update({ where: { id }, data })` applied to every matching
row. -/
def Db.updateDiscountRow (db : Db) (id : String) (f : DiscountCode → DiscountCode) : Db :=
  { db with discountCodes := db.discountCodes.map (fun d => if d.id == id then f d else d) }

/-- The NestJS exceptions thrown by the embedded code paths.  `jsError` is an
uncaught plain JavaScript `Error`/`TypeError` (surfaced by Nest as a generic
500 response). -/
inductive AppError
  | badRequest (msg : String)
  | notFound (msg : String)
  | unauthorized (msg : String)
  | internalServerError (msg : String)
  | jsError (msg : String)
deriving DecidableEq, Repr

/-- Embedding of `calculateDiscount` from
`src/src/common/utils/calculate-discount.util.ts`.  The JavaScript condition
`if (maxDiscount && discount > maxDiscount)` treats both `null` and `0` as
falsy, which the `m ≠ 0` conjunct reproduces. -/
def calculateDiscount (subtotal : ℚ) (type : String) (value : ℚ)
    (maxDiscount : Option ℚ) : ℚ :=
  let discount : ℚ :=
    if type = "PERCENTAGE" then
      let d := subtotal * value / 100
      match maxDiscount with
      | some m => if m ≠ 0 ∧ d > m then m else d
      | none => d
    else value
  min discount subtotal

/-- JavaScript template-literal stringification of a boolean. -/
def boolStr (b : Bool) : String := if b then "true" else "false"

/-- JavaScript `s.toUpperCase()` (ASCII range, which covers discount
codes). -/
def jsToUpper (s : String) : String := String.mk (s.data.map Char.toUpper)

/-- JavaScript `s.toLowerCase()` (ASCII range, which covers payment source
types). -/
def jsToLower (s : String) : String := String.mk (s.data.map Char.toLower)

/-- Accumulator loop for `jsSplit`. -/
def splitCharsAux (sep : Char) : List Char → List Char → List String
  | [], acc => [String.mk acc.reverse]
  | c :: cs, acc =>
    if c == sep then String.mk acc.reverse :: splitCharsAux sep cs []
    else splitCharsAux sep cs (c :: acc)

/-- JavaScript `s.split(sep)` for a one-character separator: splits at every
occurrence, keeps empty segments, and never returns an empty array. -/
def jsSplit (s : String) (sep : Char) : List String := splitCharsAux sep s.data []

/-- Does the character list `l` start with `pat`?  (Support for modelling
JavaScript `String.prototype.includes`.) -/
def charsStartWith : List Char → List Char → Bool
  | [], _ => true
  | _ :: _, [] => false
  | p :: ps, c :: cs => p == c && charsStartWith ps cs

/-- Does some suffix of `l` start with `pat`? -/
def charsContain (pat : List Char) : List Char → Bool
  | [] => charsStartWith pat []
  | c :: cs => charsStartWith pat (c :: cs) || charsContain pat cs

/-- JavaScript `s.includes(pat)`. -/
def strIncludes (s pat : String) : Bool := charsContain pat.toList s.toList

/-- JavaScript `Math.round` (round half toward positive infinity). -/
def jsRound (a : ℚ) : ℤ := ⌊a + 1 / 2⌋

/-- The Paymob environment: configuration values read through
`ConfigService` (each `Option`, since any of them may be unset), the node
`crypto` HMAC-SHA512 primitive, and the outcomes of the three gateway HTTP
calls (`none` models a rejected axios request).

`hmacSha512 secret message` is modelled from the spec as the external keyed
hash: `crypto.createHmac('sha512', secret).update(message).digest('hex')`
lives in node's crypto library, outside this repository, so it is an opaque
parameter of the environment here. -/
structure PayEnv where
  apiKey : Option String
  integrationId : Option ℕ
  iframeId : Option ℕ
  hmacSecret : Option String
  hmacSha512 : String → String → String
  authResult : Option String
  registerResult : Option ℕ
  paymentKeyResult : Option String

/-- The `order` sub-object of `PaymobWebhookSignatureData`.  The interface
declares it as `{ id: number }`; `none` models a runtime payload in which the
object is absent, so that `order.id` throws a `TypeError`. -/
structure SigOrder where
  id : ℕ
deriving DecidableEq, Repr

/-- `PaymobWebhookSignatureData` from
`src/src/modules/payment/interfaces/payment.interface.ts`: the argument of
`verifyWebhookSignature`. -/
structure PaymobWebhookSignatureData where
  amount_cents : ℕ
  created_at : String
  currency : String
  error_occured : Bool
  has_parent_transaction : Bool
  id : ℕ
  integration_id : ℕ
  is_3d_secure : Bool
  is_auth : Bool
  is_capture : Bool
  is_refunded : Bool
  is_standalone_payment : Bool
  is_voided : Bool
  order : Option SigOrder
  owner : ℕ
  pending : Bool
  source_data_pan : String
  source_data_sub_type : String
  source_data_type : String
  success : Bool
  hmac : String
deriving DecidableEq, Repr

/-- Embedding of `PaymentService.verifyWebhookSignature` from
`src/src/modules/payment/payment.service.ts` (lines 187-243).  The two ways
the wrapped code can throw — reading `order.id` off a missing object while
building the concatenation, and the explicit `Error` when
`PAYMOB_HMAC_SECRET` is unset — are caught by the surrounding `try/catch`,
which returns `false`. -/
def verifyWebhookSignature (env : PayEnv) (data : PaymobWebhookSignatureData) : Bool :=
  match data.order with
  | none => false
  | some order =>
    let concatenated :=
      toString data.amount_cents ++ data.created_at ++ data.currency
        ++ boolStr data.error_occured ++ boolStr data.has_parent_transaction
        ++ toString data.id ++ toString data.integration_id
        ++ boolStr data.is_3d_secure ++ boolStr data.is_auth
        ++ boolStr data.is_capture ++ boolStr data.is_refunded
        ++ boolStr data.is_standalone_payment ++ boolStr data.is_voided
        ++ toString order.id ++ toString data.owner ++ boolStr data.pending
        ++ data.source_data_pan ++ data.source_data_sub_type
        ++ data.source_data_type ++ boolStr data.success
    match env.hmacSecret with
    | none => false
    | some hmacSecret => env.hmacSha512 hmacSecret concatenated == data.hmac

/-- Billing first name from `PaymentService.createPayment` (line 150):
`userName.split(' ')[0] || 'Customer'`.  JavaScript `split(' ')` splits on
the single space character keeping empty segments and never yields an empty
array, and `|| 'Customer'` replaces the falsy empty string. -/
def billingFirstName (userName : String) : String :=
  let t := (jsSplit userName ' ').headD ""
  if t = "" then "Customer" else t

/-- Billing last name from `PaymentService.createPayment` (line 151):
`userName.split(' ').slice(1).join(' ') || ''` (the `|| ''` is the identity
on strings). -/
def billingLastName (userName : String) : String :=
  String.intercalate " " ((jsSplit userName ' ').drop 1)

/-- Embedding of `PaymentService.createPayment`
(`src/src/modules/payment/payment.service.ts`, lines 126-180): the
three-step Paymob choreography.  Each failing step is caught and rethrown as
an `InternalServerErrorException` with the message shown; the missing-iframe
check throws a plain `Error` that nothing catches. -/
def createPayment (env : PayEnv) (orderId : String) (amount : ℚ)
    (userEmail userName : String) : Except AppError String :=
  let _amountCents := jsRound (amount * 100)
  match env.apiKey with
  | none => .error (.internalServerError "Failed to initialize payment")
  | some _ =>
  match env.authResult with
  | none => .error (.internalServerError "Failed to initialize payment")
  | some _authToken =>
  match env.registerResult with
  | none => .error (.internalServerError "Failed to register payment")
  | some _paymobOrderId =>
  let _billingFirst := billingFirstName userName
  let _billingLast := billingLastName userName
  let _billingEmail := userEmail
  match env.integrationId with
  | none => .error (.internalServerError "Failed to generate payment key")
  | some _ =>
  match env.paymentKeyResult with
  | none => .error (.internalServerError "Failed to generate payment key")
  | some paymentKey =>
  match env.iframeId with
  | none => .error (.jsError "PAYMOB_IFRAME_ID is not configured")
  | some iframeId =>
  .ok ("https://accept.paymob.com/api/acceptance/iframes/" ++ toString iframeId
        ++ "?payment_token=" ++ paymentKey)

/-- JavaScript `discount.startsAt && discount.startsAt > now` (a `Date` is
always truthy when non-null). -/
def startsAtFuture (startsAt : Option ℤ) (now : ℤ) : Bool :=
  match startsAt with
  | some s => decide (now < s)
  | none => false

/-- JavaScript `discount.expiresAt && discount.expiresAt < now`. -/
def expiresAtPast (expiresAt : Option ℤ) (now : ℤ) : Bool :=
  match expiresAt with
  | some e => decide (e < now)
  | none => false

/-- JavaScript `discount.usageLimit && discount.usageCount >=
discount.usageLimit`: `usageLimit` is a nullable JS number, so both `null`
and `0` are falsy and skip the check. -/
def usageLimitReached (limit : Option ℤ) (count : ℤ) : Bool :=
  match limit with
  | some l => !(l == 0) && decide (l ≤ count)
  | none => false

/-- Embedding of the private `OrdersService.validateAndGetDiscount`
(`src/src/modules/orders/orders.service.ts`, lines 230-285).  `minPurchase`
is a Prisma `Decimal | null`, and a `Decimal` object is truthy even at zero,
so that check runs whenever the column is non-null. -/
def validateAndGetDiscount (db : Db) (now : ℤ) (code userId : String)
    (subtotal : ℚ) : Except AppError DiscountCode :=
  match db.findDiscountByCode (jsToUpper code) with
  | none => .error (.badRequest "Invalid discount code")
  | some discount =>
  if !discount.isActive then
    .error (.badRequest "This discount code is no longer active")
  else if startsAtFuture discount.startsAt now then
    .error (.badRequest "This discount code is not yet active")
  else if expiresAtPast discount.expiresAt now then
    .error (.badRequest "This discount code has expired")
  else if usageLimitReached discount.usageLimit discount.usageCount then
    .error (.badRequest "This discount code has been fully used")
  else if usageLimitReached discount.perUserLimit
      (db.countUserUsages discount.id userId) then
    .error (.badRequest
      "You have already used this discount code the maximum number of times")
  else
    match discount.minPurchase with
    | some minPurchase =>
      if subtotal < minPurchase then
        .error (.badRequest ("Minimum purchase of " ++ toString minPurchase
          ++ " EGP required for this discount"))
      else .ok discount
    | none => .ok discount

/-- Subtotal computation from `OrdersService.createOrder` (lines 37-39):
`cart.items.reduce((sum, item) => sum + Number(item.priceAtAdd), 0)`. -/
def cartSubtotal (items : List CartItem) : ℚ :=
  items.foldl (fun sum item => sum + item.priceAtAdd) 0

/-- The denormalized order item built inside the transaction of
`OrdersService.createOrder` (lines 85-91). -/
def toOrderItem (item : CartItem) : OrderItem :=
  { productId := item.productId
    title := item.product.title
    authorName := item.product.authorName
    price := item.priceAtAdd
    pdfFile := item.product.pdfFile }

/-- The `prisma.$transaction` callback of `OrdersService.createOrder`
(lines 72-133), as one atomic step on the store: create the order with its
denormalized items, create the pending payment, record the discount usage
and increment the code's counter when a discount id is present, and delete
the cart's items (the cart row itself survives).  Returns the new store and
the created order. -/
def checkoutTxn (db : Db) (cart : Cart) (newOrderId userId : String)
    (subtotal discountAmount total : ℚ)
    (discountCodeId discountCodeUsed : Option String) : Db × Order :=
  let newOrder : Order :=
    { id := newOrderId
      userId := userId
      subtotal := subtotal
      discountAmount := discountAmount
      total := total
      discountCodeId := discountCodeId
      discountCodeUsed := discountCodeUsed
      status := .PENDING
      paidAt := none
      items := cart.items.map toOrderItem }
  let newPayment : Payment :=
    { orderId := newOrderId
      amount := total
      status := .PENDING
      paymobTransactionId := none
      paymobOrderId := none
      paymentMethod := none
      paidAt := none
      webhookReceived := false
      webhookData := none
      failureReason := none }
  let db1 : Db := { db with orders := newOrder :: db.orders
                            payments := newPayment :: db.payments }
  let db2 : Db :=
    match discountCodeId with
    | some codeId =>
      let dbU : Db := { db1 with discountUsages :=
        { discountCodeId := codeId, userId := userId, orderId := newOrderId }
          :: db1.discountUsages }
      dbU.updateDiscountRow codeId (fun d => { d with usageCount := d.usageCount + 1 })
    | none => db1
  let clearedCarts :=
    db2.carts.map (fun c => if c.id == cart.id then { c with items := [] } else c)
  ({ db2 with carts := clearedCarts }, newOrder)

/-- Embedding of `OrdersService.createOrder`
(`src/src/modules/orders/orders.service.ts`, lines 20-161).  `newOrderId` is
the id Prisma generates for the new order row.  The `$transaction` is the
`checkoutTxn` step: an error raised before it leaves the store untouched, an
error raised after it (user lookup, `createPayment`) leaves its writes
committed.  `if (dto.discountCode)` treats the empty string as falsy;
`discount.maxDiscount ? Number(discount.maxDiscount) : null` is the identity
on the nullable column because a Prisma `Decimal` object is always truthy. -/
def createOrder (env : PayEnv) (db : Db) (now : ℤ) (newOrderId userId : String)
    (dtoDiscountCode : Option String) : Except AppError (Order × String) × Db :=
  match db.findCartByUser userId with
  | none => (.error (.badRequest "Your cart is empty"), db)
  | some cart =>
  if cart.items.isEmpty then (.error (.badRequest "Your cart is empty"), db)
  else
  let subtotal := cartSubtotal cart.items
  let discountStep : Except AppError (ℚ × Option String × Option String) :=
    match dtoDiscountCode with
    | some c =>
      if c = "" then .ok (0, none, none)
      else
        match validateAndGetDiscount db now c userId subtotal with
        | .error e => .error e
        | .ok discount =>
          .ok (calculateDiscount subtotal discount.discountType
                discount.discountValue discount.maxDiscount,
              some discount.id, some discount.code)
    | none => .ok (0, none, none)
  match discountStep with
  | .error e => (.error e, db)
  | .ok (discountAmount, discountCodeId, discountCodeUsed) =>
  let total := subtotal - discountAmount
  if total ≤ 0 then
    (.error (.badRequest "Order total cannot be zero or negative"), db)
  else
  let txres := checkoutTxn db cart newOrderId userId subtotal discountAmount total
    discountCodeId discountCodeUsed
  let order := txres.2
  let db3 := txres.1
  match db3.findUser userId with
  | none => (.error (.jsError "Cannot read properties of null"), db3)
  | some user =>
  let userName := user.firstName ++ " " ++ user.lastName
  match createPayment env order.id total user.email userName with
  | .error e => (.error e, db3)
  | .ok paymentUrl => (.ok (order, paymentUrl), db3)

/-- Embedding of the private `WebhooksController.mapPaymentMethod`
(`src/src/modules/webhooks/webhooks.controller.ts`, lines 155-164). -/
def mapPaymentMethod (type : String) : PaymentMethod :=
  let lowerType := jsToLower type
  if strIncludes lowerType "card" then .CARD
  else if strIncludes lowerType "wallet" then .MOBILE_WALLET
  else .CASH

/-- A database operation performed by the webhook handler, for stating
ordering facts about reads and writes. -/
inductive DbOp
  | orderFindUnique (id : String)
  | orderUpdate (id : String)
  | paymentUpdate (orderId : String)
deriving DecidableEq, Repr

/-- The argument object `handlePaymobWebhook` builds for
`verifyWebhookSignature` (webhooks.controller.ts, lines 38-60): the twenty
signed fields plus the received hmac, copied out of `payload.obj`. -/
def sigDataOf (payload : PaymobWebhookData) : PaymobWebhookSignatureData :=
  let transaction := payload.obj
  { amount_cents := transaction.amount_cents
    created_at := transaction.created_at
    currency := transaction.currency
    error_occured := transaction.error_occured
    has_parent_transaction := transaction.has_parent_transaction
    id := transaction.id
    integration_id := transaction.integration_id
    is_3d_secure := transaction.is_3d_secure
    is_auth := transaction.is_auth
    is_capture := transaction.is_capture
    is_refunded := transaction.is_refunded
    is_standalone_payment := transaction.is_standalone_payment
    is_voided := transaction.is_voided
    order := some { id := transaction.order.id }
    owner := transaction.owner
    pending := transaction.pending
    source_data_pan := transaction.source_data.pan
    source_data_sub_type := transaction.source_data.sub_type
    source_data_type := transaction.source_data.type
    success := transaction.success
    hmac := payload.hmac }

/-- Embedding of `WebhooksController.handlePaymobWebhook`
(`src/src/modules/webhooks/webhooks.controller.ts`, lines 32-153).  Returns
the HTTP outcome (an acknowledgement body or a thrown exception), the store
after the call, and the trace of database operations issued.  When the order
row exists but its payment row is missing, `tx.payment.update` throws inside
the `$transaction`, which rolls back the order update and surfaces a generic
500. -/
def handlePaymobWebhook (env : PayEnv) (db : Db) (now : ℤ)
    (payload : PaymobWebhookData) : Except AppError String × Db × List DbOp :=
  let transaction := payload.obj
  let isValid := verifyWebhookSignature env (sigDataOf payload)
  if !isValid then (.error (.unauthorized "Invalid signature"), db, [])
  else
  match transaction.order.merchant_order_id with
  | none => (.ok "No order ID provided", db, [])
  | some ourOrderId =>
  if ourOrderId = "" then (.ok "No order ID provided", db, [])
  else
  match db.findOrder ourOrderId with
  | none => (.ok "Order not found", db, [.orderFindUnique ourOrderId])
  | some _order =>
  let paymentRow := db.findPaymentByOrder ourOrderId
  if (match paymentRow with
      | some p => p.webhookReceived
      | none => false) then
    (.ok "Already processed", db, [.orderFindUnique ourOrderId])
  else
  let webhookData := payload
  let errorMessage :=
    match transaction.data_message with
    | some m => m
    | none => "Payment failed"
  if transaction.success then
    match paymentRow with
    | none =>
      (.error (.internalServerError "Internal server error"), db,
        [.orderFindUnique ourOrderId, .orderUpdate ourOrderId, .paymentUpdate ourOrderId])
    | some _ =>
      let dbA := db.updateOrderRow ourOrderId
        (fun o => { o with status := .PAID, paidAt := some now })
      let dbB := dbA.updatePaymentRow ourOrderId
        (fun p => { p with
          status := .COMPLETED
          paymobTransactionId := some (toString transaction.id)
          paymobOrderId := some (toString transaction.order.id)
          paymentMethod := some (mapPaymentMethod transaction.source_data.type)
          paidAt := some now
          webhookReceived := true
          webhookData := some webhookData })
      (.ok "Webhook processed", dbB,
        [.orderFindUnique ourOrderId, .orderUpdate ourOrderId, .paymentUpdate ourOrderId])
  else
    match paymentRow with
    | none =>
      (.error (.internalServerError "Internal server error"), db,
        [.orderFindUnique ourOrderId, .orderUpdate ourOrderId, .paymentUpdate ourOrderId])
    | some _ =>
      let dbA := db.updateOrderRow ourOrderId (fun o => { o with status := .FAILED })
      let dbB := dbA.updatePaymentRow ourOrderId
        (fun p => { p with
          status := .FAILED
          failureReason := some errorMessage
          webhookReceived := true
          webhookData := some webhookData })
      (.ok "Webhook processed", dbB,
        [.orderFindUnique ourOrderId, .orderUpdate ourOrderId, .paymentUpdate ourOrderId])

/-- Deliver a sequence of webhook payloads (each with its own arrival time),
threading the store through `handlePaymobWebhook`. -/
def runWebhooks (env : PayEnv) (db : Db) : List (ℤ × PaymobWebhookData) → Db
  | [] => db
  | (now, w) :: ws => runWebhooks env (handlePaymobWebhook env db now w).2.1 ws

/-! Theorems.  Each claim of the specification gets one theorem below, with
supporting lemmas, concrete scenario data and witnesses shared around
them. -/

/-- Finding by key after a keyed in-place update: if `f` preserves the key,
updating the matching rows and then looking the key up returns the original
lookup with `f` applied. -/
theorem find?_update_list {α : Type} (key : α → String) (k : String) (f : α → α)
    (hf : ∀ a, key (f a) = key a) :
    ∀ l : List α,
      (l.map (fun a => if key a == k then f a else a)).find? (fun a => key a == k)
        = (l.find? (fun a => key a == k)).map f := by
  intro l
  induction l with
  | nil => rfl
  | cons a as ih =>
    by_cases h : key a == k
    · simp [List.find?, h, hf]
    · simp only [List.map_cons, List.find?]
      rw [if_neg (by simpa using h)]
      simp only [h]
      exact ih

/-- Claim C6 counterexample: at subtotal 100, a PERCENTAGE 10 discount whose
`maxDiscount` is set to 0 is NOT capped — `if (maxDiscount && ...)` treats 0
as falsy — so the code returns 10 where the claimed cap would give 0. -/
theorem calculateDiscount_zero_cap_counterexample :
    calculateDiscount 100 "PERCENTAGE" 10 (some 0) = 10 ∧
      min (min ((100 : ℚ) * 10 / 100) 0) 100 = 0 ∧ (10 : ℚ) ≠ 0 := by
  refine ⟨by norm_num [calculateDiscount], by norm_num, by norm_num⟩

/-- Claim C6 (amended): `calculateDiscount` returns
`min (subtotal * value / 100) subtotal` capped at `maxDiscount` only when
`maxDiscount` is set AND nonzero for PERCENTAGE, returns `min value subtotal`
for FIXED_AMOUNT, and for every type the result is at most the subtotal. -/
theorem calculateDiscount_characterization (s v : ℚ) (mo : Option ℚ) :
    calculateDiscount s "PERCENTAGE" v mo =
      min (match mo with
            | some m => if m ≠ 0 then min (s * v / 100) m else s * v / 100
            | none => s * v / 100) s
    ∧ calculateDiscount s "FIXED_AMOUNT" v mo = min v s
    ∧ ∀ t : String, calculateDiscount s t v mo ≤ s := by
  refine ⟨?_, by simp [calculateDiscount], ?_⟩
  · cases mo with
    | none => simp [calculateDiscount]
    | some m =>
      show (if ("PERCENTAGE" : String) = "PERCENTAGE" then
          let d := s * v / 100
          if m ≠ 0 ∧ d > m then m else d
        else v) ⊓ s = (if m ≠ 0 then (s * v / 100) ⊓ m else s * v / 100) ⊓ s
      rw [if_pos rfl]
      by_cases hm : m = 0
      · simp [hm]
      · rw [if_pos hm]
        by_cases hd : s * v / 100 > m
        · rw [if_pos ⟨hm, hd⟩, min_eq_right (le_of_lt hd)]
        · rw [if_neg (fun hc => hd hc.2), min_eq_left (not_lt.mp hd)]
  · intro t
    unfold calculateDiscount
    exact min_le_right _ _

/-- Tokens of a full name as the specification words it: the nonempty
fragments obtained by splitting at space characters.  This definition
follows the spec's words for comparison with the code. -/
def specNameTokens (name : String) : List String :=
  (jsSplit name ' ').filter (fun t => !(t == ""))

/-- First name per the claim's words: the first token, defaulting to
Customer when there are no tokens. -/
def specFirstName (name : String) : String :=
  match specNameTokens name with
  | [] => "Customer"
  | t :: _ => t

/-- Last name per the claim's words: the remaining tokens joined by a
space, empty when there are none. -/
def specLastName (name : String) : String :=
  String.intercalate " " (specNameTokens name).tail

/-- Claim C9 counterexample: on the name John-space-space-Doe the code's
last name is space-Doe (JavaScript `split(' ')` keeps the empty segment
between the two spaces), not the token joining Doe the claim requires. -/
theorem billingName_counterexample :
    ¬ (billingFirstName "John  Doe" = specFirstName "John  Doe" ∧
       billingLastName "John  Doe" = specLastName "John  Doe") := by
  decide

/-- Claim C9 (amended): the name is split at single space characters with
empty segments kept; whenever that split produces no empty segment (no
leading, trailing or doubled spaces) the derivation agrees with the
token-based claim — first token as first name, remaining tokens joined by a
space as last name — and the empty name falls back to Customer with an
empty last name. -/
theorem billingName_spec_amended :
    (∀ name : String, (jsSplit name ' ').all (fun t => !(t == "")) = true →
        billingFirstName name = specFirstName name ∧
        billingLastName name = specLastName name)
    ∧ billingFirstName "" = "Customer" ∧ billingLastName "" = "" := by
  refine ⟨?_, by decide, by decide⟩
  intro name h
  have hfilter : (jsSplit name ' ').filter (fun t => !(t == "")) = jsSplit name ' ' :=
    List.filter_eq_self.mpr (List.all_eq_true.mp h)
  constructor
  · unfold billingFirstName specFirstName specNameTokens
    rw [hfilter]
    cases hl : jsSplit name ' ' with
    | nil => simp
    | cons t ts =>
      have ht : ¬(t = "") := by
        have := List.all_eq_true.mp h t (hl ▸ List.mem_cons_self t ts)
        simpa using this
      simp [ht]
  · unfold billingLastName specLastName specNameTokens
    rw [hfilter, List.drop_one]

/-- Witness for the amended claim C9 at the ordinary name John-space-Doe. -/
theorem billingName_spec_amended_witness :
    billingFirstName "John Doe" = specFirstName "John Doe" ∧
    billingLastName "John Doe" = specLastName "John Doe" :=
  billingName_spec_amended.1 "John Doe" (by decide)

/-- The twenty signed webhook fields, stringified (booleans as the words
true/false, numbers as decimal) and listed in the contractual order the
specification documents. -/
def specSignedFields (d : PaymobWebhookSignatureData) (order : SigOrder) : List String :=
  [toString d.amount_cents, d.created_at, d.currency, boolStr d.error_occured,
   boolStr d.has_parent_transaction, toString d.id, toString d.integration_id,
   boolStr d.is_3d_secure, boolStr d.is_auth, boolStr d.is_capture,
   boolStr d.is_refunded, boolStr d.is_standalone_payment, boolStr d.is_voided,
   toString order.id, toString d.owner, boolStr d.pending, d.source_data_pan,
   d.source_data_sub_type, d.source_data_type, boolStr d.success]

/-- Claim C5: `verifyWebhookSignature` keyed-hashes exactly the
concatenation of the twenty fields in the documented order with the
configured secret and succeeds iff the result equals the received hmac; a
missing `order` object or an unconfigured secret (the two exception routes)
yields false instead of an exception. -/
theorem verifyWebhookSignature_characterization
    (env : PayEnv) (d : PaymobWebhookSignatureData) :
    (∀ order secret, d.order = some order → env.hmacSecret = some secret →
      (verifyWebhookSignature env d = true ↔
        env.hmacSha512 secret (String.join (specSignedFields d order)) = d.hmac))
    ∧ (d.order = none → verifyWebhookSignature env d = false)
    ∧ (env.hmacSecret = none → verifyWebhookSignature env d = false) := by
  refine ⟨?_, ?_, ?_⟩
  · intro order secret ho hs
    simp [verifyWebhookSignature, ho, hs, specSignedFields, String.join, beq_iff_eq]
  · intro ho
    simp [verifyWebhookSignature, ho]
  · intro hs
    cases ho : d.order with
    | none => simp [verifyWebhookSignature, ho]
    | some o => simp [verifyWebhookSignature, ho, hs]

/-- A fully configured environment whose abstract HMAC returns the constant
string h. -/
def envSig : PayEnv :=
  { apiKey := some "k", integrationId := some 1, iframeId := some 7,
    hmacSecret := some "s", hmacSha512 := fun _ _ => "h",
    authResult := some "t", registerResult := some 9, paymentKeyResult := some "pk" }

/-- A concrete signature payload carrying the hmac h that `envSig`
computes. -/
def dSig : PaymobWebhookSignatureData :=
  { amount_cents := 15000, created_at := "20251023", currency := "EGP",
    error_occured := false, has_parent_transaction := false, id := 3,
    integration_id := 1, is_3d_secure := false, is_auth := false,
    is_capture := false, is_refunded := false, is_standalone_payment := true,
    is_voided := false, order := some { id := 9 }, owner := 1,
    pending := false, source_data_pan := "1234", source_data_sub_type := "x",
    source_data_type := "card", success := true, hmac := "h" }

/-- Witness for claim C5 at a concrete payload and environment. -/
theorem verifyWebhookSignature_characterization_witness :
    verifyWebhookSignature envSig dSig = true :=
  ((verifyWebhookSignature_characterization envSig dSig).1 ⟨9⟩ "s" rfl rfl).mpr rfl

/-- Folding `Option.orElse` from an already-produced rejection never changes
it. -/
theorem foldl_orElse_some (m : String) (l : List (Option String)) :
    l.foldl (fun acc c => acc <|> c) (some m) = some m := by
  induction l with
  | nil => rfl
  | cons c cs ih => simpa using ih

/-- The DiscountEvaluator rejection sequence as the specification words it
(first failing check wins, each with its own message), amended per the
counterexample: a `usageLimit` or `perUserLimit` stored as 0 is skipped like
an unset one, because the JavaScript guard treats 0 as falsy. -/
def specDiscountRejection (db : Db) (now : ℤ) (userId : String) (subtotal : ℚ)
    (d : DiscountCode) : Option String :=
  ([ if d.isActive then none else some "This discount code is no longer active",
     match d.startsAt with
     | some s => if now < s then some "This discount code is not yet active" else none
     | none => none,
     match d.expiresAt with
     | some e => if e < now then some "This discount code has expired" else none
     | none => none,
     match d.usageLimit with
     | some l => if l ≠ 0 ∧ l ≤ d.usageCount then
         some "This discount code has been fully used" else none
     | none => none,
     match d.perUserLimit with
     | some l => if l ≠ 0 ∧ l ≤ db.countUserUsages d.id userId then
         some "You have already used this discount code the maximum number of times"
       else none
     | none => none,
     match d.minPurchase with
     | some m => if subtotal < m then
         some ("Minimum purchase of " ++ toString m ++ " EGP required for this discount")
       else none
     | none => none ]).foldl (fun acc c => acc <|> c) none

/-- The whole DiscountEvaluator validation as the specification words it:
look the (upper-cased) code up, run the rejection sequence, and on success
return the stored entity unchanged. -/
def specValidateDiscount (db : Db) (now : ℤ) (code userId : String) (subtotal : ℚ) :
    Except AppError DiscountCode :=
  match db.findDiscountByCode (jsToUpper code) with
  | none => .error (.badRequest "Invalid discount code")
  | some d =>
    match specDiscountRejection db now userId subtotal d with
    | some msg => .error (.badRequest msg)
    | none => .ok d

/-- The six fixed rejection messages of discount validation. -/
def discountRejectionMessages : List String :=
  ["Invalid discount code", "This discount code is no longer active",
   "This discount code is not yet active", "This discount code has expired",
   "This discount code has been fully used",
   "You have already used this discount code the maximum number of times"]

/-- Every minimum-purchase rejection differs from every fixed rejection
message, whatever the minimum is (the first eight characters already
differ). -/
theorem minPurchase_msg_distinct (m : ℚ) :
    ∀ msg ∈ discountRejectionMessages,
      ("Minimum purchase of " ++ toString m ++ " EGP required for this discount") ≠ msg := by
  intro msg hmem h
  fin_cases hmem <;>
  · have h2 := congrArg (fun s => s.data.head?) h
    simp [String.data_append] at h2

set_option maxHeartbeats 1000000 in
/-- Claim C8 (amended): discount validation equals the specification's check
sequence — code exists, then isActive, then the [startsAt, expiresAt]
window, then the global usage limit whenever it is set AND nonzero, then the
per-user count of DiscountUsage rows against perUserLimit whenever it is set
AND nonzero, then minPurchase — each failing check with its own distinct
rejection message, and success returns exactly the stored entity with no
mutation of the store. -/
theorem validateAndGetDiscount_spec (db : Db) (now : ℤ) (code userId : String)
    (subtotal : ℚ) :
    validateAndGetDiscount db now code userId subtotal
        = specValidateDiscount db now code userId subtotal
    ∧ (∀ d, validateAndGetDiscount db now code userId subtotal = .ok d →
        db.findDiscountByCode (jsToUpper code) = some d)
    ∧ discountRejectionMessages.Pairwise (fun a b => a ≠ b)
    ∧ (∀ m : ℚ, ∀ msg ∈ discountRejectionMessages,
        ("Minimum purchase of " ++ toString m ++ " EGP required for this discount") ≠ msg) := by
  have main : validateAndGetDiscount db now code userId subtotal
      = specValidateDiscount db now code userId subtotal := by
    cases hfind : db.findDiscountByCode (jsToUpper code) with
    | none => simp [validateAndGetDiscount, specValidateDiscount, hfind]
    | some d =>
      simp only [validateAndGetDiscount, specValidateDiscount, hfind]
      cases hs : d.startsAt <;> cases he : d.expiresAt <;> cases hu : d.usageLimit <;>
        cases hp : d.perUserLimit <;> cases hm : d.minPurchase <;>
        by_cases h1 : d.isActive <;>
        simp [specDiscountRejection, startsAtFuture, expiresAtPast, usageLimitReached,
          foldl_orElse_some, h1, hs, he, hu, hp, hm] <;>
        split_ifs <;> simp_all
  refine ⟨main, ?_, by decide, minPurchase_msg_distinct⟩
  intro d hok
  rw [main] at hok
  unfold specValidateDiscount at hok
  cases hfind : db.findDiscountByCode (jsToUpper code) with
  | none => rw [hfind] at hok; exact absurd hok (by simp)
  | some d2 =>
    rw [hfind] at hok
    cases hrej : specDiscountRejection db now userId subtotal d2 with
    | some msg =>
      simp only [hrej] at hok
      exact absurd hok (by simp)
    | none =>
      simp only [hrej, Except.ok.injEq] at hok
      rw [hok]

/-- A valid, in-limits percentage discount stored under SAVE10. -/
def dSave : DiscountCode :=
  { id := "dc1", code := "SAVE10", discountType := "PERCENTAGE",
    discountValue := 10, minPurchase := none, maxDiscount := none,
    usageLimit := some 100, usageCount := 3, perUserLimit := some 2,
    isActive := true, startsAt := none, expiresAt := none }

/-- A store holding only the SAVE10 discount. -/
def dbDisc : Db :=
  { carts := [], orders := [], payments := [], discountCodes := [dSave],
    discountUsages := [], users := [] }

/-- Witness for the amended claim C8: validating save10 (lower case) against
the store succeeds and returns exactly the stored SAVE10 row. -/
theorem validateAndGetDiscount_spec_witness :
    dbDisc.findDiscountByCode (jsToUpper "save10") = some dSave :=
  (validateAndGetDiscount_spec dbDisc 5 "save10" "u1" 100).2.1 dSave rfl

/-- A discount whose usageLimit column holds 0 while usageCount is already
3. -/
def dZero : DiscountCode :=
  { id := "dc0", code := "ZERO", discountType := "FIXED_AMOUNT",
    discountValue := 5, minPurchase := none, maxDiscount := none,
    usageLimit := some 0, usageCount := 3, perUserLimit := none,
    isActive := true, startsAt := none, expiresAt := none }

/-- A store holding only the ZERO discount. -/
def dbZero : Db :=
  { carts := [], orders := [], payments := [], discountCodes := [dZero],
    discountUsages := [], users := [] }

/-- Claim C8 counterexample: the ZERO discount has `usageLimit` set to 0 and
`usageCount` 3, so the claimed check `usageCount < usageLimit` fails, yet
validation accepts it — `if (discount.usageLimit && ...)` skips the check
because 0 is falsy in JavaScript. -/
theorem validateAndGetDiscount_zero_limit_counterexample :
    validateAndGetDiscount dbZero 0 "ZERO" "u1" 100 = .ok dZero
    ∧ dZero.usageLimit = some 0 ∧ ¬ (dZero.usageCount < 0) := by
  exact ⟨rfl, rfl, by decide⟩



/-- Updating orders in place does not change which row an id lookup finds,
beyond applying the id-preserving update to it. -/
theorem findOrder_updateOrderRow (db : Db) (oid : String) (f : Order → Order)
    (hf : ∀ o, (f o).id = o.id) :
    (db.updateOrderRow oid f).findOrder oid = (db.findOrder oid).map f :=
  find?_update_list (fun o : Order => o.id) oid f hf db.orders

/-- Updating payments in place does not change which row an orderId lookup
finds, beyond applying the key-preserving update to it. -/
theorem findPayment_updatePaymentRow (db : Db) (oid : String) (f : Payment → Payment)
    (hf : ∀ p, (f p).orderId = p.orderId) :
    (db.updatePaymentRow oid f).findPaymentByOrder oid = (db.findPaymentByOrder oid).map f :=
  find?_update_list (fun p : Payment => p.orderId) oid f hf db.payments

/-- Payment updates leave the orders table untouched. -/
theorem findOrder_updatePaymentRow (db : Db) (oid oid2 : String) (f : Payment → Payment) :
    (db.updatePaymentRow oid2 f).findOrder oid = db.findOrder oid := rfl

/-- Order updates leave the payments table untouched. -/
theorem findPayment_updateOrderRow (db : Db) (oid oid2 : String) (f : Order → Order) :
    (db.updateOrderRow oid2 f).findPaymentByOrder oid = db.findPaymentByOrder oid := rfl

/-- Claim C3: for every webhook payload whose signature fails verification,
the handler throws the unauthorized Invalid-signature error, the store is
returned unchanged, and the database-operation trace is empty — the
signature check happens before any read or write. -/
theorem handleWebhook_invalid_signature (env : PayEnv) (db : Db) (now : ℤ)
    (payload : PaymobWebhookData)
    (hsig : verifyWebhookSignature env (sigDataOf payload) = false) :
    handlePaymobWebhook env db now payload
      = (.error (.unauthorized "Invalid signature"), db, []) := by
  simp [handlePaymobWebhook, hsig]

/-- One successful-webhook step in full: the handler marks the order PAID
and completes the payment in the same transition. -/
theorem handleWebhook_success_step (env : PayEnv) (db : Db) (now : ℤ)
    (payload : PaymobWebhookData) (oid : String) (o : Order) (p : Payment)
    (hsig : verifyWebhookSignature env (sigDataOf payload) = true)
    (hmid : payload.obj.order.merchant_order_id = some oid)
    (hne : oid ≠ "")
    (hord : db.findOrder oid = some o)
    (hpay : db.findPaymentByOrder oid = some p)
    (hrecv : p.webhookReceived = false)
    (hsucc : payload.obj.success = true) :
    handlePaymobWebhook env db now payload
      = (.ok "Webhook processed",
         (db.updateOrderRow oid
             (fun o2 => { o2 with status := .PAID, paidAt := some now })).updatePaymentRow oid
           (fun p2 => { p2 with
              status := .COMPLETED
              paymobTransactionId := some (toString payload.obj.id)
              paymobOrderId := some (toString payload.obj.order.id)
              paymentMethod := some (mapPaymentMethod payload.obj.source_data.type)
              paidAt := some now
              webhookReceived := true
              webhookData := some payload }),
         [.orderFindUnique oid, .orderUpdate oid, .paymentUpdate oid]) := by
  simp [handlePaymobWebhook, hsig, hmid, hne, hord, hpay, hrecv, hsucc]



/-- The idempotency gate: when the referenced order exists and its payment
already has webhookReceived, the handler acknowledges Already-processed
after the single read, leaving the store unchanged. -/
theorem handleWebhook_gate_ack (env : PayEnv) (db : Db) (now : ℤ)
    (w : PaymobWebhookData) (oid : String) (o : Order) (p : Payment)
    (hsig : verifyWebhookSignature env (sigDataOf w) = true)
    (hmid : w.obj.order.merchant_order_id = some oid)
    (hne : oid ≠ "")
    (hord : db.findOrder oid = some o)
    (hpay : db.findPaymentByOrder oid = some p)
    (hrecv : p.webhookReceived = true) :
    handlePaymobWebhook env db now w
      = (.ok "Already processed", db, [.orderFindUnique oid]) := by
  simp [handlePaymobWebhook, hsig, hmid, hne, hord, hpay, hrecv]

/-- Claim C1: delivering an identical success webhook twice performs exactly
one transition — the first call returns the processed acknowledgement,
marks the order PAID with paidAt set and the payment COMPLETED with
webhookReceived true, and the second call (at any later time) sees
webhookReceived and acknowledges Already-processed without modifying any
Order or Payment state. -/
theorem handleWebhook_success_idempotent (env : PayEnv) (db : Db) (now : ℤ)
    (payload : PaymobWebhookData) (oid : String) (o : Order) (p : Payment)
    (hsig : verifyWebhookSignature env (sigDataOf payload) = true)
    (hmid : payload.obj.order.merchant_order_id = some oid)
    (hne : oid ≠ "")
    (hord : db.findOrder oid = some o)
    (hpay : db.findPaymentByOrder oid = some p)
    (hrecv : p.webhookReceived = false)
    (hsucc : payload.obj.success = true) :
    (handlePaymobWebhook env db now payload).1 = .ok "Webhook processed"
    ∧ (handlePaymobWebhook env db now payload).2.1.findOrder oid
        = some { o with status := .PAID, paidAt := some now }
    ∧ (handlePaymobWebhook env db now payload).2.1.findPaymentByOrder oid
        = some { p with
            status := .COMPLETED
            paymobTransactionId := some (toString payload.obj.id)
            paymobOrderId := some (toString payload.obj.order.id)
            paymentMethod := some (mapPaymentMethod payload.obj.source_data.type)
            paidAt := some now
            webhookReceived := true
            webhookData := some payload }
    ∧ (∀ now2 : ℤ,
        handlePaymobWebhook env (handlePaymobWebhook env db now payload).2.1 now2 payload
          = (.ok "Already processed", (handlePaymobWebhook env db now payload).2.1,
             [.orderFindUnique oid])) := by
  have hstep := handleWebhook_success_step env db now payload oid o p hsig hmid hne hord
    hpay hrecv hsucc
  have h2o : (handlePaymobWebhook env db now payload).2.1.findOrder oid
      = some { o with status := .PAID, paidAt := some now } := by
    rw [hstep]
    rw [findOrder_updatePaymentRow,
      findOrder_updateOrderRow db oid
        (fun o2 => { o2 with status := .PAID, paidAt := some now }) (fun _ => rfl), hord]
    rfl
  have h2p : (handlePaymobWebhook env db now payload).2.1.findPaymentByOrder oid
      = some { p with
          status := .COMPLETED
          paymobTransactionId := some (toString payload.obj.id)
          paymobOrderId := some (toString payload.obj.order.id)
          paymentMethod := some (mapPaymentMethod payload.obj.source_data.type)
          paidAt := some now
          webhookReceived := true
          webhookData := some payload } := by
    rw [hstep]
    rw [findPayment_updatePaymentRow _ oid
        (fun p2 => { p2 with
          status := .COMPLETED
          paymobTransactionId := some (toString payload.obj.id)
          paymobOrderId := some (toString payload.obj.order.id)
          paymentMethod := some (mapPaymentMethod payload.obj.source_data.type)
          paidAt := some now
          webhookReceived := true
          webhookData := some payload }) (fun _ => rfl),
      findPayment_updateOrderRow, hpay]
    rfl
  refine ⟨by rw [hstep], h2o, h2p, ?_⟩
  intro now2
  exact handleWebhook_gate_ack env _ now2 payload oid _ _ hsig hmid hne h2o h2p rfl



/-- One failure-webhook step in full: the handler marks the order FAILED and
fails the payment, recording the failure reason, in the same transition. -/
theorem handleWebhook_failure_step (env : PayEnv) (db : Db) (now : ℤ)
    (payload : PaymobWebhookData) (oid : String) (o : Order) (p : Payment)
    (hsig : verifyWebhookSignature env (sigDataOf payload) = true)
    (hmid : payload.obj.order.merchant_order_id = some oid)
    (hne : oid ≠ "")
    (hord : db.findOrder oid = some o)
    (hpay : db.findPaymentByOrder oid = some p)
    (hrecv : p.webhookReceived = false)
    (hfail : payload.obj.success = false) :
    handlePaymobWebhook env db now payload
      = (.ok "Webhook processed",
         (db.updateOrderRow oid
             (fun o2 => { o2 with status := .FAILED })).updatePaymentRow oid
           (fun p2 => { p2 with
              status := .FAILED
              failureReason := some (match payload.obj.data_message with
                | some m => m
                | none => "Payment failed")
              webhookReceived := true
              webhookData := some payload }),
         [.orderFindUnique oid, .orderUpdate oid, .paymentUpdate oid]) := by
  simp [handlePaymobWebhook, hsig, hmid, hne, hord, hpay, hrecv, hfail]

/-- Once the payment row of the referenced order has webhookReceived set,
any webhook delivery for that order leaves the whole store unchanged. -/
theorem handleWebhook_received_frozen (env : PayEnv) (db : Db) (now : ℤ)
    (w : PaymobWebhookData) (oid : String)
    (hmid : w.obj.order.merchant_order_id = some oid)
    (hgate : ∀ p, db.findPaymentByOrder oid = some p → p.webhookReceived = true) :
    (handlePaymobWebhook env db now w).2.1 = db := by
  by_cases hsig : verifyWebhookSignature env (sigDataOf w) = true
  · by_cases hoe : oid = ""
    · simp [handlePaymobWebhook, hsig, hmid, hoe]
    · cases hord : db.findOrder oid with
      | none => simp [handlePaymobWebhook, hsig, hmid, hoe, hord]
      | some o =>
        cases hpay : db.findPaymentByOrder oid with
        | none =>
          cases hsucc : w.obj.success <;>
            simp [handlePaymobWebhook, hsig, hmid, hoe, hord, hpay, hsucc]
        | some p => simp [handlePaymobWebhook, hsig, hmid, hoe, hord, hpay, hgate p hpay]
  · have hs2 : verifyWebhookSignature env (sigDataOf w) = false := by
      simpa using hsig
    simp [handlePaymobWebhook, hs2]

/-- Webhook sequences for an order whose payment has webhookReceived set
never change the store. -/
theorem runWebhooks_frozen (env : PayEnv) (db : Db) (oid : String)
    (hgate : ∀ p, db.findPaymentByOrder oid = some p → p.webhookReceived = true) :
    ∀ ws : List (ℤ × PaymobWebhookData),
      (∀ x ∈ ws, x.2.obj.order.merchant_order_id = some oid) →
      runWebhooks env db ws = db := by
  intro ws
  induction ws with
  | nil => intro _; rfl
  | cons x xs ih =>
    intro hall
    obtain ⟨t, w⟩ := x
    have hstep := handleWebhook_received_frozen env db t w oid
      (hall (t, w) (List.mem_cons_self _ xs)) hgate
    show runWebhooks env (handlePaymobWebhook env db t w).2.1 xs = db
    rw [hstep]
    exact ih (fun y hy => hall y (List.mem_cons_of_mem _ hy))



/-- Claim C10: processing a failure webhook sets the order FAILED and the
payment FAILED with webhookReceived true in one transition, and afterwards
no sequence of webhook deliveries for that order — success webhooks
included — ever changes the store again: the order can never become
PAID through the webhook path. -/
theorem handleWebhook_failed_stays_failed (env : PayEnv) (db : Db) (now : ℤ)
    (payload : PaymobWebhookData) (oid : String) (o : Order) (p : Payment)
    (hsig : verifyWebhookSignature env (sigDataOf payload) = true)
    (hmid : payload.obj.order.merchant_order_id = some oid)
    (hne : oid ≠ "")
    (hord : db.findOrder oid = some o)
    (hpay : db.findPaymentByOrder oid = some p)
    (hrecv : p.webhookReceived = false)
    (hfail : payload.obj.success = false) :
    (handlePaymobWebhook env db now payload).1 = .ok "Webhook processed"
    ∧ (handlePaymobWebhook env db now payload).2.1.findOrder oid
        = some { o with status := .FAILED }
    ∧ (handlePaymobWebhook env db now payload).2.1.findPaymentByOrder oid
        = some { p with
            status := .FAILED
            failureReason := some (match payload.obj.data_message with
              | some m => m
              | none => "Payment failed")
            webhookReceived := true
            webhookData := some payload }
    ∧ ∀ ws : List (ℤ × PaymobWebhookData),
        (∀ x ∈ ws, x.2.obj.order.merchant_order_id = some oid) →
        runWebhooks env (handlePaymobWebhook env db now payload).2.1 ws
          = (handlePaymobWebhook env db now payload).2.1 := by
  have hstep := handleWebhook_failure_step env db now payload oid o p hsig hmid hne hord
    hpay hrecv hfail
  have h2o : (handlePaymobWebhook env db now payload).2.1.findOrder oid
      = some { o with status := .FAILED } := by
    rw [hstep]
    rw [findOrder_updatePaymentRow,
      findOrder_updateOrderRow db oid (fun o2 => { o2 with status := .FAILED })
        (fun _ => rfl), hord]
    rfl
  have h2p : (handlePaymobWebhook env db now payload).2.1.findPaymentByOrder oid
      = some { p with
          status := .FAILED
          failureReason := some (match payload.obj.data_message with
            | some m => m
            | none => "Payment failed")
          webhookReceived := true
          webhookData := some payload } := by
    rw [hstep]
    rw [findPayment_updatePaymentRow _ oid
        (fun p2 => { p2 with
          status := .FAILED
          failureReason := some (match payload.obj.data_message with
            | some m => m
            | none => "Payment failed")
          webhookReceived := true
          webhookData := some payload }) (fun _ => rfl),
      findPayment_updateOrderRow, hpay]
    rfl
  refine ⟨by rw [hstep], h2o, h2p, ?_⟩
  intro ws hall
  refine runWebhooks_frozen env _ oid ?_ ws hall
  intro p2 hp2
  rw [h2p] at hp2
  injection hp2 with h
  rw [← h]

/-- A pending order awaiting its webhook. -/
def orderH : Order :=
  { id := "o1", userId := "u1", subtotal := 150, discountAmount := 0, total := 150,
    discountCodeId := none, discountCodeUsed := none, status := .PENDING,
    paidAt := none, items := [] }

/-- The pending payment of `orderH`, webhook not yet received. -/
def paymentH : Payment :=
  { orderId := "o1", amount := 150, status := .PENDING, paymobTransactionId := none,
    paymobOrderId := none, paymentMethod := none, paidAt := none,
    webhookReceived := false, webhookData := none, failureReason := none }

/-- A store holding exactly `orderH` and `paymentH`. -/
def dbH : Db :=
  { carts := [], orders := [orderH], payments := [paymentH], discountCodes := [],
    discountUsages := [], users := [] }

/-- A successful Paymob transaction object referencing `orderH`. -/
def txSuccess : WebhookTx :=
  { id := 3, amount_cents := 15000, integration_id := 1, owner := 1, success := true,
    is_auth := false, is_capture := false, is_standalone_payment := true,
    is_voided := false, is_refunded := false, is_3d_secure := false,
    has_parent_transaction := false, error_occured := false, pending := false,
    created_at := "20251023", currency := "EGP",
    order := { id := 9, merchant_order_id := some "o1" },
    source_data := { type := "card", pan := "1234", sub_type := "x" },
    data_message := none }

/-- A success webhook whose hmac matches what `envSig` computes. -/
def wSuccess : PaymobWebhookData := { obj := txSuccess, hmac := "h" }

/-- The same webhook with a wrong hmac. -/
def wBadSig : PaymobWebhookData := { obj := txSuccess, hmac := "bad" }

/-- A failure webhook (declined payment) with a valid hmac. -/
def wFailure : PaymobWebhookData :=
  { obj := { txSuccess with success := false, data_message := some "Declined" },
    hmac := "h" }

/-- Witness for claim C1: in the concrete scenario the second delivery of
the same success webhook is acknowledged Already-processed with the store
unchanged. -/
theorem handleWebhook_success_idempotent_witness :
    handlePaymobWebhook envSig (handlePaymobWebhook envSig dbH 7 wSuccess).2.1 8 wSuccess
      = (.ok "Already processed", (handlePaymobWebhook envSig dbH 7 wSuccess).2.1,
         [.orderFindUnique "o1"]) :=
  (handleWebhook_success_idempotent envSig dbH 7 wSuccess "o1" orderH paymentH
    rfl rfl (by decide) rfl rfl rfl rfl).2.2.2 8

/-- Witness for claim C3 at a concrete tampered webhook. -/
theorem handleWebhook_invalid_signature_witness :
    handlePaymobWebhook envSig dbH 7 wBadSig
      = (.error (.unauthorized "Invalid signature"), dbH, []) :=
  handleWebhook_invalid_signature envSig dbH 7 wBadSig rfl

/-- Witness for claim C10: after the concrete failure webhook, a later
valid success webhook for the same order changes nothing. -/
theorem handleWebhook_failed_stays_failed_witness :
    runWebhooks envSig (handlePaymobWebhook envSig dbH 7 wFailure).2.1 [(9, wSuccess)]
      = (handlePaymobWebhook envSig dbH 7 wFailure).2.1 :=
  (handleWebhook_failed_stays_failed envSig dbH 7 wFailure "o1" orderH paymentH
    rfl rfl (by decide) rfl rfl rfl rfl).2.2.2 [(9, wSuccess)] (by decide)



/-- The order created by the checkout transaction, field by field. -/
theorem checkoutTxn_snd (db : Db) (cart : Cart) (oid uid : String)
    (st da tot : ℚ) (dci dcu : Option String) :
    (checkoutTxn db cart oid uid st da tot dci dcu).2
      = { id := oid, userId := uid, subtotal := st, discountAmount := da,
          total := tot, discountCodeId := dci, discountCodeUsed := dcu,
          status := .PENDING, paidAt := none,
          items := cart.items.map toOrderItem } := rfl

/-- The checkout transaction prepends exactly the new order to the orders
table. -/
theorem checkoutTxn_orders (db : Db) (cart : Cart) (oid uid : String)
    (st da tot : ℚ) (dci dcu : Option String) :
    (checkoutTxn db cart oid uid st da tot dci dcu).1.orders
      = (checkoutTxn db cart oid uid st da tot dci dcu).2 :: db.orders := by
  cases dci <;> rfl

/-- The pending payment row the checkout transaction creates. -/
def pendingPayment (oid : String) (amount : ℚ) : Payment :=
  { orderId := oid, amount := amount, status := .PENDING,
    paymobTransactionId := none, paymobOrderId := none,
    paymentMethod := none, paidAt := none, webhookReceived := false,
    webhookData := none, failureReason := none }

/-- The checkout transaction prepends exactly the new pending payment. -/
theorem checkoutTxn_payments (db : Db) (cart : Cart) (oid uid : String)
    (st da tot : ℚ) (dci dcu : Option String) :
    (checkoutTxn db cart oid uid st da tot dci dcu).1.payments
      = pendingPayment oid tot :: db.payments := by
  cases dci <;> rfl

/-- The checkout transaction empties the originating cart's items while the
cart row survives; other carts are untouched. -/
theorem checkoutTxn_carts (db : Db) (cart : Cart) (oid uid : String)
    (st da tot : ℚ) (dci dcu : Option String) :
    (checkoutTxn db cart oid uid st da tot dci dcu).1.carts
      = db.carts.map (fun c => if c.id == cart.id then { c with items := [] } else c) := by
  cases dci <;> rfl

/-- The checkout transaction never touches the users table. -/
theorem checkoutTxn_users (db : Db) (cart : Cart) (oid uid : String)
    (st da tot : ℚ) (dci dcu : Option String) :
    (checkoutTxn db cart oid uid st da tot dci dcu).1.users = db.users := by
  cases dci <;> rfl

/-- Without a discount id, the checkout transaction leaves the discount
tables untouched. -/
theorem checkoutTxn_usages_none (db : Db) (cart : Cart) (oid uid : String)
    (st da tot : ℚ) (dcu : Option String) :
    (checkoutTxn db cart oid uid st da tot none dcu).1.discountUsages
        = db.discountUsages
    ∧ (checkoutTxn db cart oid uid st da tot none dcu).1.discountCodes
        = db.discountCodes := ⟨rfl, rfl⟩

/-- A DiscountUsage row. -/
def usageRow (did uid oid : String) : DiscountUsage :=
  { discountCodeId := did, userId := uid, orderId := oid }

/-- With a discount id, the checkout transaction records exactly one
DiscountUsage row and increments exactly that code's usageCount by 1. -/
theorem checkoutTxn_usages_some (db : Db) (cart : Cart) (oid uid did : String)
    (st da tot : ℚ) (dcu : Option String) :
    (checkoutTxn db cart oid uid st da tot (some did) dcu).1.discountUsages
        = usageRow did uid oid :: db.discountUsages
    ∧ (checkoutTxn db cart oid uid st da tot (some did) dcu).1.discountCodes
        = db.discountCodes.map
            (fun x => if x.id == did then { x with usageCount := x.usageCount + 1 } else x) :=
  ⟨rfl, rfl⟩

/-- The buyer in the payment-failure scenario. -/
def userC : User := { id := "u7", email := "jane@x.com", firstName := "Jane", lastName := "Doe" }

/-- A one-item cart worth 150. -/
def cartC : Cart :=
  { id := "c7", userId := "u7",
    items := [{ productId := "p1", priceAtAdd := 150,
                product := { title := "Book", authorName := "A", pdfFile := "f.pdf" } }] }

/-- The store before the payment-failure checkout. -/
def dbC7 : Db :=
  { carts := [cartC], orders := [], payments := [], discountCodes := [],
    discountUsages := [], users := [userC] }

/-- `envSig` with the Paymob API key unset, so the gateway auth step
fails. -/
def envNoKey : PayEnv := { envSig with apiKey := none }

/-- The order the failing checkout leaves behind. -/
def orderC7 : Order :=
  { id := "o7", userId := "u7", subtotal := 150, discountAmount := 0,
    total := 150, discountCodeId := none, discountCodeUsed := none,
    status := .PENDING, paidAt := none,
    items := [{ productId := "p1", title := "Book", authorName := "A",
                price := 150, pdfFile := "f.pdf" }] }

/-- The pending payment the failing checkout leaves behind. -/
def paymentC7 : Payment :=
  { orderId := "o7", amount := 150, status := .PENDING,
    paymobTransactionId := none, paymobOrderId := none, paymentMethod := none,
    paidAt := none, webhookReceived := false, webhookData := none,
    failureReason := none }

/-- Claim C7, evaluated at the failing input: with the gateway auth step
failing after the checkout transaction committed, `createOrder` surfaces the
generic InternalServerErrorException Failed-to-initialize-payment — the code
has no distinct OrderCreatedPaymentInitFailed error and nothing in the
response says the order exists — while the committed order, pending payment
and cart clearing all survive (no rollback). -/
theorem createOrder_paymentInit_failure :
    (createOrder envNoKey dbC7 0 "o7" "u7" none).1
        = .error (.internalServerError "Failed to initialize payment")
    ∧ (createOrder envNoKey dbC7 0 "o7" "u7" none).2.findOrder "o7" = some orderC7
    ∧ (createOrder envNoKey dbC7 0 "o7" "u7" none).2.findPaymentByOrder "o7"
        = some paymentC7
    ∧ (createOrder envNoKey dbC7 0 "o7" "u7" none).2.findCartByUser "u7"
        = some { cartC with items := [] }
    ∧ (createOrder envNoKey dbC7 0 "o7" "u7" none).2 ≠ dbC7 := by
  have hrun : createOrder envNoKey dbC7 0 "o7" "u7" none
      = (.error (.internalServerError "Failed to initialize payment"),
         { carts := [{ cartC with items := [] }], orders := [orderC7],
           payments := [paymentC7], discountCodes := [], discountUsages := [],
           users := [userC] }) := by
    norm_num [createOrder, checkoutTxn, createPayment, cartSubtotal, envNoKey, envSig,
      dbC7, cartC, userC, orderC7, paymentC7, Db.findCartByUser, Db.findUser,
      List.find?, toOrderItem]
  rw [hrun]
  refine ⟨rfl, rfl, rfl, rfl, by decide⟩



/-- Claim C2: every order row `createOrder` adds to the store satisfies
total = subtotal - discountAmount and total > 0; and whenever the computed
subtotal minus the discount is non-positive (for example a discount fully
offsetting the subtotal), `createOrder` rejects with the
Order-total-cannot-be-zero-or-negative validation error and the store is
returned unchanged — nothing is persisted. -/
theorem createOrder_total_invariant (env : PayEnv) (db : Db) (now : ℤ)
    (oid uid : String) (dc : Option String)
    (r : Except AppError (Order × String)) (db2 : Db)
    (hrun : createOrder env db now oid uid dc = (r, db2)) :
    (∀ o ∈ db2.orders, o ∉ db.orders →
        o.total = o.subtotal - o.discountAmount ∧ 0 < o.total)
    ∧ (∀ cart c d,
        db.findCartByUser uid = some cart →
        cart.items.isEmpty = false →
        dc = some c →
        ¬ c = "" →
        validateAndGetDiscount db now c uid (cartSubtotal cart.items) = .ok d →
        cartSubtotal cart.items
            - calculateDiscount (cartSubtotal cart.items) d.discountType
                d.discountValue d.maxDiscount ≤ 0 →
        r = .error (.badRequest "Order total cannot be zero or negative") ∧ db2 = db) := by
  simp only [createOrder] at hrun
  constructor
  · intro o ho hnotin
    split at hrun
    · injection hrun with h1 h2
      subst h2
      exact absurd ho hnotin
    · rename_i cart hcart
      split at hrun
      · injection hrun with h1 h2
        subst h2
        exact absurd ho hnotin
      · split at hrun
        · injection hrun with h1 h2
          subst h2
          exact absurd ho hnotin
        · rename_i da dci dcu heq
          split at hrun
          · injection hrun with h1 h2
            subst h2
            exact absurd ho hnotin
          · rename_i hpos
            have hmem : o ∈ (checkoutTxn db cart oid uid (cartSubtotal cart.items) da
                (cartSubtotal cart.items - da) dci dcu).1.orders → o.total = o.subtotal - o.discountAmount ∧ 0 < o.total := by
              intro hm
              rw [checkoutTxn_orders] at hm
              rcases List.mem_cons.mp hm with h | h
              · subst h
                rw [checkoutTxn_snd]
                exact ⟨rfl, not_le.mp hpos⟩
              · exact absurd h hnotin
            split at hrun
            · injection hrun with h1 h2
              subst h2
              exact hmem ho
            · split at hrun
              · injection hrun with h1 h2
                subst h2
                exact hmem ho
              · injection hrun with h1 h2
                subst h2
                exact hmem ho
  · intro cart c d hcart hne hdc hcne hval hle
    rw [hdc] at hrun
    simp only [hcart, hne, hcne, hval, if_pos hle, Bool.false_eq_true, if_false] at hrun
    injection hrun with h1 h2
    exact ⟨h1.symm, h2.symm⟩



/-- Claim C4: when `createOrder` succeeds for a non-empty cart, one
transaction creates the PENDING order with its items copied from the cart
and product snapshots, the PENDING payment with amount equal to the order
total, exactly one DiscountUsage row plus a usageCount increment of exactly
1 precisely when a discount code was applied, and empties the cart's items
while the cart row survives; and for every outcome of `createOrder` the
store is either completely unchanged or carries all of those writes
together. -/
theorem createOrder_checkout_atomic (env : PayEnv) (db : Db) (now : ℤ)
    (oid uid : String) (dc : Option String) :
    (∀ cart o url db2,
      db.findCartByUser uid = some cart →
      createOrder env db now oid uid dc = (.ok (o, url), db2) →
      (o.id = oid ∧ o.status = .PENDING ∧ o.subtotal = cartSubtotal cart.items
        ∧ o.total = o.subtotal - o.discountAmount
        ∧ o.items = cart.items.map toOrderItem)
      ∧ db2.orders = o :: db.orders
      ∧ db2.payments = pendingPayment oid o.total :: db.payments
      ∧ db2.carts = db.carts.map
          (fun c2 => if c2.id == cart.id then { c2 with items := [] } else c2)
      ∧ db2.users = db.users
      ∧ (∀ c, dc = some c → ¬ c = "" → ∃ d,
          validateAndGetDiscount db now c uid (cartSubtotal cart.items) = .ok d
          ∧ o.discountCodeId = some d.id
          ∧ o.discountAmount = calculateDiscount (cartSubtotal cart.items)
              d.discountType d.discountValue d.maxDiscount
          ∧ db2.discountUsages = usageRow d.id uid oid :: db.discountUsages
          ∧ db2.discountCodes = db.discountCodes.map
              (fun x => if x.id == d.id then { x with usageCount := x.usageCount + 1 }
                else x))
      ∧ ((dc = none ∨ dc = some "") →
          o.discountCodeId = none ∧ o.discountAmount = 0
          ∧ db2.discountUsages = db.discountUsages
          ∧ db2.discountCodes = db.discountCodes))
    ∧ (∀ r db2, createOrder env db now oid uid dc = (r, db2) →
        db2 = db ∨ ∃ cart o,
          db.findCartByUser uid = some cart
          ∧ db2.orders = o :: db.orders
          ∧ o.status = .PENDING ∧ 0 < o.total ∧ o.total = o.subtotal - o.discountAmount
          ∧ db2.payments = pendingPayment o.id o.total :: db.payments
          ∧ db2.carts = db.carts.map
              (fun c2 => if c2.id == cart.id then { c2 with items := [] } else c2)
          ∧ ((o.discountCodeId = none ∧ db2.discountUsages = db.discountUsages
                ∧ db2.discountCodes = db.discountCodes)
             ∨ (∃ did, o.discountCodeId = some did
                 ∧ db2.discountUsages = usageRow did uid o.id :: db.discountUsages
                 ∧ db2.discountCodes = db.discountCodes.map
                     (fun x => if x.id == did then { x with usageCount := x.usageCount + 1 }
                       else x)))) := by
  constructor
  · intro cart o url db2 hcart hrun
    simp only [createOrder, hcart] at hrun
    split at hrun
    · exact Except.noConfusion (Prod.mk.injEq .. ▸ hrun).1
    · split at hrun
      · rename_i e heq
        injection hrun with h1 h2
        exact Except.noConfusion h1
      · rename_i da dci dcu heq
        split at hrun
        · injection hrun with h1 h2
          exact Except.noConfusion h1
        · rename_i hpos
          split at hrun
          · injection hrun with h1 h2
            exact Except.noConfusion h1
          · rename_i user huser
            split at hrun
            · injection hrun with h1 h2
              exact Except.noConfusion h1
            · rename_i url2 hpay
              injection hrun with h1 h2
              injection h1 with h3
              injection h3 with h4 h5
              subst h4
              subst h2
              refine ⟨?_, ?_, ?_, ?_, ?_, ?_, ?_⟩
              · rw [checkoutTxn_snd]
                exact ⟨rfl, rfl, rfl, rfl, rfl⟩
              · rw [checkoutTxn_orders]
              · rw [checkoutTxn_payments, checkoutTxn_snd]
              · rw [checkoutTxn_carts]
              · rw [checkoutTxn_users]
              · intro c hdcsome hcne2
                subst hdcsome
                simp only [if_neg hcne2] at heq
                cases hv : validateAndGetDiscount db now c uid (cartSubtotal cart.items) with
                | error e =>
                  rw [hv] at heq
                  simp at heq
                | ok dd =>
                  rw [hv] at heq
                  simp only [Except.ok.injEq, Prod.mk.injEq] at heq
                  obtain ⟨hda, hdci, hdcu⟩ := heq
                  subst hda
                  subst hdci
                  subst hdcu
                  refine ⟨dd, rfl, ?_, ?_, ?_, ?_⟩
                  · rw [checkoutTxn_snd]
                  · rw [checkoutTxn_snd]
                  · exact (checkoutTxn_usages_some db cart oid uid dd.id
                      (cartSubtotal cart.items) _ _ _).1
                  · exact (checkoutTxn_usages_some db cart oid uid dd.id
                      (cartSubtotal cart.items) _ _ _).2
              · intro hdcn
                have hstep : da = 0 ∧ dci = none := by
                  rcases hdcn with h | h
                  · subst h
                    simp only [Except.ok.injEq, Prod.mk.injEq] at heq
                    exact ⟨heq.1.symm, heq.2.1.symm⟩
                  · subst h
                    simp only [reduceIte, Except.ok.injEq, Prod.mk.injEq] at heq
                    exact ⟨heq.1.symm, heq.2.1.symm⟩
                obtain ⟨hda, hdci⟩ := hstep
                subst hda
                subst hdci
                refine ⟨?_, ?_, ?_, ?_⟩
                · rw [checkoutTxn_snd]
                · rw [checkoutTxn_snd]
                · exact (checkoutTxn_usages_none db cart oid uid
                    (cartSubtotal cart.items) _ _ _).1
                · exact (checkoutTxn_usages_none db cart oid uid
                    (cartSubtotal cart.items) _ _ _).2
  · intro r db2 hrun
    simp only [createOrder] at hrun
    split at hrun
    · injection hrun with h1 h2
      exact Or.inl h2.symm
    · rename_i cart hcart
      split at hrun
      · injection hrun with h1 h2
        exact Or.inl h2.symm
      · split at hrun
        · injection hrun with h1 h2
          exact Or.inl h2.symm
        · rename_i da dci dcu heq
          split at hrun
          · injection hrun with h1 h2
            exact Or.inl h2.symm
          · rename_i hpos
            have hbundle : ∀ db2, (checkoutTxn db cart oid uid (cartSubtotal cart.items)
                da (cartSubtotal cart.items - da) dci dcu).1 = db2 →
                db2 = db ∨ ∃ cart2 o2, db.findCartByUser uid = some cart2
                  ∧ db2.orders = o2 :: db.orders
                  ∧ o2.status = .PENDING ∧ 0 < o2.total
                  ∧ o2.total = o2.subtotal - o2.discountAmount
                  ∧ db2.payments = pendingPayment o2.id o2.total :: db.payments
                  ∧ db2.carts = db.carts.map
                      (fun c2 => if c2.id == cart2.id then { c2 with items := [] } else c2)
                  ∧ ((o2.discountCodeId = none ∧ db2.discountUsages = db.discountUsages
                        ∧ db2.discountCodes = db.discountCodes)
                     ∨ (∃ did, o2.discountCodeId = some did
                         ∧ db2.discountUsages = usageRow did uid o2.id :: db.discountUsages
                         ∧ db2.discountCodes = db.discountCodes.map
                             (fun x => if x.id == did then
                               { x with usageCount := x.usageCount + 1 } else x))) := by
              intro db2 hdb2
              subst hdb2
              refine Or.inr ⟨cart, (checkoutTxn db cart oid uid (cartSubtotal cart.items)
                da (cartSubtotal cart.items - da) dci dcu).2, hcart,
                checkoutTxn_orders .., ?_, ?_, ?_, ?_, checkoutTxn_carts .., ?_⟩
              · rw [checkoutTxn_snd]
              · rw [checkoutTxn_snd]
                exact not_le.mp hpos
              · rw [checkoutTxn_snd]
              · rw [checkoutTxn_payments, checkoutTxn_snd]
              · cases dci with
                | none =>
                  refine Or.inl ⟨?_, ?_, ?_⟩
                  · rw [checkoutTxn_snd]
                  · exact (checkoutTxn_usages_none db cart oid uid
                      (cartSubtotal cart.items) _ _ _).1
                  · exact (checkoutTxn_usages_none db cart oid uid
                      (cartSubtotal cart.items) _ _ _).2
                | some did =>
                  refine Or.inr ⟨did, ?_, ?_, ?_⟩
                  · rw [checkoutTxn_snd]
                  · rw [checkoutTxn_snd]
                    exact (checkoutTxn_usages_some db cart oid uid did
                      (cartSubtotal cart.items) _ _ _).1
                  · exact (checkoutTxn_usages_some db cart oid uid did
                      (cartSubtotal cart.items) _ _ _).2
            split at hrun
            · injection hrun with h1 h2
              exact hbundle db2 h2
            · split at hrun
              · injection hrun with h1 h2
                exact hbundle db2 h2
              · injection hrun with h1 h2
                exact hbundle db2 h2



/-- A discount that fully offsets a 50-unit cart. -/
def dFull : DiscountCode :=
  { id := "dcF", code := "FULL", discountType := "FIXED_AMOUNT", discountValue := 50,
    minPurchase := none, maxDiscount := none, usageLimit := none, usageCount := 0,
    perUserLimit := none, isActive := true, startsAt := none, expiresAt := none }

/-- A one-item cart worth 50. -/
def cartW : Cart :=
  { id := "c2", userId := "u2",
    items := [{ productId := "p2", priceAtAdd := 50,
                product := { title := "B2", authorName := "A2", pdfFile := "f2" } }] }

/-- The store for the fully-discounted checkout attempt. -/
def dbW : Db :=
  { carts := [cartW], orders := [], payments := [], discountCodes := [dFull],
    discountUsages := [],
    users := [{ id := "u2", email := "u2@x.com", firstName := "Ann", lastName := "Lee" }] }

/-- Witness for claim C2: the concrete 100-percent-equivalent discount is
rejected before persistence with the store unchanged. -/
theorem createOrder_total_invariant_witness :
    (createOrder envSig dbW 0 "o2" "u2" (some "FULL")).1
        = .error (.badRequest "Order total cannot be zero or negative")
    ∧ (createOrder envSig dbW 0 "o2" "u2" (some "FULL")).2 = dbW :=
  (createOrder_total_invariant envSig dbW 0 "o2" "u2" (some "FULL")
      (createOrder envSig dbW 0 "o2" "u2" (some "FULL")).1
      (createOrder envSig dbW 0 "o2" "u2" (some "FULL")).2 rfl).2
    cartW "FULL" dFull rfl rfl rfl (by decide)
    (by with_unfolding_all rfl) (by with_unfolding_all decide)

/-- The SUMMER20 discount of the specification's example scenario:
PERCENTAGE 20 with no cap. -/
def dSummer : DiscountCode :=
  { id := "dcS", code := "SUMMER20", discountType := "PERCENTAGE", discountValue := 20,
    minPurchase := none, maxDiscount := none, usageLimit := none, usageCount := 0,
    perUserLimit := none, isActive := true, startsAt := none, expiresAt := none }

/-- The buyer in the example checkout. -/
def userX : User := { id := "u3", email := "u3@x.com", firstName := "Max", lastName := "Roe" }

/-- A one-item cart worth 200. -/
def cartX : Cart :=
  { id := "c3", userId := "u3",
    items := [{ productId := "p3", priceAtAdd := 200,
                product := { title := "B3", authorName := "A3", pdfFile := "f3" } }] }

/-- The store before the example checkout. -/
def dbX : Db :=
  { carts := [cartX], orders := [], payments := [], discountCodes := [dSummer],
    discountUsages := [], users := [userX] }

/-- The order the example checkout creates: subtotal 200, discount 40,
total 160. -/
def orderX : Order :=
  { id := "oX", userId := "u3", subtotal := 200, discountAmount := 40, total := 160,
    discountCodeId := some "dcS", discountCodeUsed := some "SUMMER20",
    status := .PENDING, paidAt := none,
    items := [{ productId := "p3", title := "B3", authorName := "A3",
                price := 200, pdfFile := "f3" }] }

/-- The payment URL the example checkout returns under `envSig`. -/
def urlX : String := "https://accept.paymob.com/api/acceptance/iframes/7?payment_token=pk"

/-- The store after the example checkout. -/
def db2X : Db :=
  { carts := [{ cartX with items := [] }], orders := [orderX],
    payments := [pendingPayment "oX" 160],
    discountCodes := [{ dSummer with usageCount := 1 }],
    discountUsages := [usageRow "dcS" "u3" "oX"], users := [userX] }

/-- Witness for claim C4 on the specification's example scenario (subtotal
200, SUMMER20 at 20 percent, total 160). -/
theorem createOrder_checkout_atomic_witness :
    db2X.orders = orderX :: dbX.orders
    ∧ db2X.payments = pendingPayment "oX" orderX.total :: dbX.payments
    ∧ db2X.users = dbX.users := by
  have h := (createOrder_checkout_atomic envSig dbX 0 "oX" "u3" (some "SUMMER20")).1
      cartX orderX urlX db2X rfl (by with_unfolding_all rfl)
  exact ⟨h.2.1, h.2.2.1, h.2.2.2.2.1⟩

end ECom
